import Mathlib

/-!
Verification development for the DarkNet-pt repository (`nets/nn.py`).

The file shallowly embeds the repository's model-definition code:

* `Layer` is the alphabet of framework leaf modules the repository
  instantiates (`nn.Conv2d`, `nn.BatchNorm2d`, `nn.LeakyReLU`, `nn.ReLU`,
  `nn.MaxPool2d`, `utils.GlobalAvgPool2d`, `nn.Linear`, `nn.Softmax`).
* `Block` is the alphabet of the repository's own building blocks
  (`Conv`, `MaxPool2d(2, 2)` uses, `ResidualBlock`, and the classifier
  head pieces); `darknet19Features`, `darknet19Classifier`,
  `darknet53Features`, `darknet53Classifier` transliterate the
  `nn.Sequential` wiring of `DarkNet19.__init__` and `DarkNet53.__init__`.
* `runNets` is the evaluator of the wiring, parameterized by an
  interpretation `I` of framework leaf modules and an interpretation
  `addT` of the framework's in-place tensor addition (`out += residual`);
  all heavy computation is delegated to `I`/`addT`, exactly as the
  repository delegates it to the framework.
* `shapeOf`/`addShape` instantiate the evaluator with the framework's
  documented shape behaviour, giving an executable shape semantics.
* `darknet19New`/`darknet53New` embed the constructors, preserving the
  statement order of `__init__` (the `_initialize_weights` call happens
  before `self.features`/`self.classifier` are assigned).
* `mainPrinted` embeds the `__main__` driver at the level of what each
  `print` call reports.
-/

namespace DarkNetPt

/-- Modelled from the spec: `utils.auto_pad` is imported by `nets/nn.py`
but the `utils` module is not under `src/`.  Per the spec's description of
the convolution blocks (a 1x1 convolution with explicit `p=0`, and `k x k`
convolutions that are padded so that stride-1 convolutions preserve the
spatial size), it returns the explicit padding when one is given and
`k / 2` otherwise. -/
def auto_pad (k : Nat) (p : Option Nat) : Nat :=
  match p with
  | some v => v
  | none => k / 2

/-- Framework leaf modules instantiated by the repository.  `conv2d` keeps
in/out channels, kernel, stride, resolved padding and bias presence
(`groups` is always `1` in this repository and is omitted); `leakyReLU`
keeps its negative slope. -/
inductive Layer where
  | conv2d (c1 c2 k s p : Nat) (bias : Bool)
  | batchNorm2d (c : Nat)
  | leakyReLU (negSlope : ℚ)
  | reLU
  | identityAct
  | maxPool2d (k s : Nat)
  | globalAvgPool
  | linear (inFeatures outFeatures : Nat) (bias : Bool)
  | softmax (dim : Nat)
deriving DecidableEq

/-- The activation chosen by `Conv.__init__`:
`self.act = nn.LeakyReLU() if act else nn.ReLU()`.
`nn.LeakyReLU()` has default negative slope `0.01 = 1/100`. -/
def Conv.activation (act : Bool) : Layer :=
  if act then Layer.leakyReLU (1/100) else Layer.reLU

/-- The `Conv` block of `nets/nn.py`: `nn.Conv2d(c1, c2, k, s,
auto_pad(k, p), groups=1, bias=False)` followed by `nn.BatchNorm2d(c2)`
followed by the activation.  The source defaults are `k=1`, `s=1`,
`p=None`, `act=True`; call sites below pass them explicitly. -/
def Conv (c1 c2 k s : Nat) (p : Option Nat) (act : Bool) : List Layer :=
  [Layer.conv2d c1 c2 k s (auto_pad k p) false,
   Layer.batchNorm2d c2,
   Conv.activation act]

/-- The body of `ResidualBlock(c1)`: `layer1 = Conv(c1, c2, p=0)` (so
`k=1`, `s=1`, explicit padding `0`) and `layer2 = Conv(c2, c1, k=3)`,
where `c2 = c1 // 2`. -/
def ResidualBlockLayers (c1 : Nat) : List Layer :=
  Conv c1 (c1 / 2) 1 1 (some 0) true ++ Conv (c1 / 2) c1 3 1 none true

/-- A node of the wiring: either a framework leaf module, or a residual
node whose forward runs `body` and then adds the unmodified input
(`out += residual` in `ResidualBlock.forward`). -/
inductive Net where
  | prim (l : Layer)
  | residual (body : List Layer)

/-- The repository's block-level vocabulary, used to transliterate the
`nn.Sequential` wiring of both networks. -/
inductive Block where
  | convB (c1 c2 k s : Nat) (p : Option Nat) (act : Bool)
  | maxPoolB (k s : Nat)
  | resB (c1 : Nat)
  | gapB
  | linearB (inFeatures outFeatures : Nat)
  | softmaxB (dim : Nat)
deriving DecidableEq

/-- The wiring nodes of one block. -/
def Block.nets : Block → List Net
  | Block.convB c1 c2 k s p act => (Conv c1 c2 k s p act).map Net.prim
  | Block.maxPoolB k s => [Net.prim (Layer.maxPool2d k s)]
  | Block.resB c1 => [Net.residual (ResidualBlockLayers c1)]
  | Block.gapB => [Net.prim Layer.globalAvgPool]
  | Block.linearB i o => [Net.prim (Layer.linear i o true)]
  | Block.softmaxB d => [Net.prim (Layer.softmax d)]

/-- The framework leaf modules of one block, in registration order.  This
is the leaf part of what `self.modules()` traverses, which is all the
type-dispatch in `_initialize_weights` can match, and all that carries
parameters. -/
def Block.layers : Block → List Layer
  | Block.convB c1 c2 k s p act => Conv c1 c2 k s p act
  | Block.maxPoolB k s => [Layer.maxPool2d k s]
  | Block.resB c1 => ResidualBlockLayers c1
  | Block.gapB => [Layer.globalAvgPool]
  | Block.linearB i o => [Layer.linear i o true]
  | Block.softmaxB d => [Layer.softmax d]

/-- Wiring nodes of a block list. -/
def netsOf : List Block → List Net
  | [] => []
  | b :: bs => b.nets ++ netsOf bs

/-- Framework leaf modules of a block list. -/
def layersOf : List Block → List Layer
  | [] => []
  | b :: bs => b.layers ++ layersOf bs

/-- `DarkNet19.features`, transliterated from the source (all `Conv`
call sites use the defaults `s=1`, `p=None`, `act=True`). -/
def darknet19Features : List Block :=
  [Block.convB 3 32 3 1 none true, Block.maxPoolB 2 2,
   Block.convB 32 64 3 1 none true, Block.maxPoolB 2 2,
   Block.convB 64 128 3 1 none true,
   Block.convB 128 64 1 1 none true,
   Block.convB 64 128 3 1 none true, Block.maxPoolB 2 2,
   Block.convB 128 256 3 1 none true,
   Block.convB 256 128 1 1 none true,
   Block.convB 128 256 3 1 none true, Block.maxPoolB 2 2,
   Block.convB 256 512 3 1 none true,
   Block.convB 512 256 1 1 none true,
   Block.convB 256 512 3 1 none true,
   Block.convB 512 256 1 1 none true,
   Block.convB 256 512 3 1 none true, Block.maxPoolB 2 2,
   Block.convB 512 1024 3 1 none true,
   Block.convB 1024 512 1 1 none true,
   Block.convB 512 1024 3 1 none true,
   Block.convB 1024 512 1 1 none true,
   Block.convB 512 1024 3 1 none true]

/-- `DarkNet19.classifier`: `nn.Sequential(*self.features,
Conv(1024, num_classes, 1), GlobalAvgPool2d(), nn.Softmax(dim=1))`. -/
def darknet19Classifier (numClasses : Nat) : List Block :=
  darknet19Features ++
    [Block.convB 1024 numClasses 1 1 none true, Block.gapB, Block.softmaxB 1]

/-- `DarkNet53._make_layer(block, in_channels, num_blocks)`: appends
`block(in_channels)` `num_blocks` times. -/
def make_layer (block : Nat → Block) (inChannels numBlocks : Nat) : List Block :=
  List.replicate numBlocks (block inChannels)

/-- `DarkNet53.features`, transliterated from the source (the
`*self._make_layer(...)` unpackings inline the produced blocks). -/
def darknet53Features (block : Nat → Block) : List Block :=
  [Block.convB 3 32 3 1 none true, Block.convB 32 64 3 2 none true] ++
  make_layer block 64 1 ++ [Block.convB 64 128 3 2 none true] ++
  make_layer block 128 2 ++ [Block.convB 128 256 3 2 none true] ++
  make_layer block 256 8 ++ [Block.convB 256 512 3 2 none true] ++
  make_layer block 512 8 ++ [Block.convB 512 1024 3 2 none true] ++
  make_layer block 1024 4

/-- `DarkNet53.classifier`: `nn.Sequential(*self.features,
GlobalAvgPool2d(), nn.Linear(1024, num_classes), nn.Softmax(dim=1))`. -/
def darknet53Classifier (block : Nat → Block) (numClasses : Nat) : List Block :=
  darknet53Features block ++
    [Block.gapB, Block.linearB 1024 numClasses, Block.softmaxB 1]

/-- The initialization actions `_initialize_weights` applies to the
weight and bias of one module, by type dispatch. -/
inductive InitAction where
  | kaimingNormalFanInLeakyReLU
  | constantOne
  | constantZero
  | normalMeanZeroStd001
deriving DecidableEq

/-- The body of the `for m in self.modules()` dispatch in
`_initialize_weights` (identical in `DarkNet19` and `DarkNet53`):
`nn.Conv2d` gets `kaiming_normal_` on the weight (and a zero bias when a
bias exists), `nn.BatchNorm2d` gets weight `1` and bias `0`, `nn.Linear`
gets `normal_(0, 0.01)` on the weight and bias `0`; anything else is
skipped. -/
def initDispatch : Layer → List InitAction
  | Layer.conv2d _ _ _ _ _ bias =>
      InitAction.kaimingNormalFanInLeakyReLU ::
        (if bias then [InitAction.constantZero] else [])
  | Layer.batchNorm2d _ => [InitAction.constantOne, InitAction.constantZero]
  | Layer.linear _ _ _ =>
      [InitAction.normalMeanZeroStd001, InitAction.constantZero]
  | _ => []

/-- One run of `_initialize_weights` over the modules visible at call
time: the list of (module, action) pairs it applies. -/
def initWeightsPass (mods : List Layer) : List (Layer × InitAction) :=
  mods.flatMap fun m => (initDispatch m).map fun a => (m, a)

/-- A constructed network: its `features` and `classifier` attributes
and the initialization actions that were actually applied during
construction. -/
structure Model where
  features : List Block
  classifier : List Block
  initActions : List (Layer × InitAction)

/-- The framework leaf modules of a constructed network.  The
`classifier` sequential unpacks `*self.features`, so the classifier's
module list already contains every module of the network exactly once
(PyTorch deduplicates shared modules/parameters). -/
def Model.modules (m : Model) : List Layer :=
  layersOf m.classifier

/-- `DarkNet19.__init__(num_classes, init_weight)`, preserving statement
order: `super().__init__()` leaves the module dictionary empty; the
`if init_weight: self._initialize_weights()` call therefore iterates over
no submodules at all; only afterwards are `self.features` and
`self.classifier` assigned. -/
def darknet19New (numClasses : Nat) (initWeight : Bool) : Model :=
  let modsAtInitTime : List Layer := []
  { features := darknet19Features,
    classifier := darknet19Classifier numClasses,
    initActions := if initWeight then initWeightsPass modsAtInitTime else [] }

/-- `DarkNet53.__init__(block, num_classes, init_weight)`, preserving
statement order exactly as in `darknet19New`. -/
def darknet53New (block : Nat → Block) (numClasses : Nat) (initWeight : Bool) : Model :=
  let modsAtInitTime : List Layer := []
  { features := darknet53Features block,
    classifier := darknet53Classifier block numClasses,
    initActions := if initWeight then initWeightsPass modsAtInitTime else [] }

/-- The `darknet19` factory function. -/
def darknet19 (numClasses : Nat) (initWeight : Bool) : Model :=
  darknet19New numClasses initWeight

/-- The `darknet53` factory function: `DarkNet53(ResidualBlock, ...)`. -/
def darknet53 (numClasses : Nat) (initWeight : Bool) : Model :=
  darknet53New Block.resB numClasses initWeight

/-- Evaluator of a leaf-module chain over an abstract tensor type `T`,
given an interpretation `I` of the framework leaf modules.  A framework
failure propagates via the `Except` plumbing, exactly as a raised
exception propagates through `nn.Sequential`. -/
def runLayers {T : Type} (I : Layer → T → Except String T) :
    List Layer → T → Except String T
  | [], x => Except.ok x
  | l :: ls, x =>
    match I l x with
    | Except.ok y => runLayers I ls y
    | Except.error e => Except.error e

/-- Evaluator of the wiring.  A `residual body` node is
`ResidualBlock.forward`: run the body on `x`, then `out += residual`
with `residual = x`, interpreted by `addT`. -/
def runNets {T : Type} (I : Layer → T → Except String T)
    (addT : T → T → Except String T) :
    List Net → T → Except String T
  | [], x => Except.ok x
  | Net.prim l :: ns, x =>
    match I l x with
    | Except.ok y => runNets I addT ns y
    | Except.error e => Except.error e
  | Net.residual body :: ns, x =>
    match runLayers I body x with
    | Except.ok y =>
      match addT y x with
      | Except.ok z => runNets I addT ns z
      | Except.error e => Except.error e
    | Except.error e => Except.error e

/-- `forward(self, x): return self.classifier(x)`, identical in both
network classes. -/
def Model.forward {T : Type} (m : Model) (I : Layer → T → Except String T)
    (addT : T → T → Except String T) (x : T) : Except String T :=
  runNets I addT (netsOf m.classifier) x

/-- Evaluation of the feature-extractor sub-network `self.features`. -/
def Model.featuresForward {T : Type} (m : Model) (I : Layer → T → Except String T)
    (addT : T → T → Except String T) (x : T) : Except String T :=
  runNets I addT (netsOf m.features) x

/-- Tensor shapes, e.g. `[n, c, h, w]` for a batched image. -/
abbrev TShape := List Nat

/-- Modelled from the spec: `utils.GlobalAvgPool2d` is imported by
`nets/nn.py` but the `utils` module is not under `src/`.  Per the spec's
glossary, global average pooling "reduces a spatial feature map to a
single vector by averaging over spatial dimensions", so its shape map
sends `[n, c, h, w]` to `[n, c]` (which is also what the subsequent
`nn.Linear(1024, num_classes)` of `DarkNet53.classifier` requires). -/
def globalAvgPoolShape : TShape → Except String TShape
  | [n, c, _, _] => Except.ok [n, c]
  | _ => Except.error "globalavgpool: expected 4d input"

/-- The framework's documented shape behaviour of each leaf module. -/
def shapeOf : Layer → TShape → Except String TShape
  | Layer.conv2d c1 c2 k s p _, [n, c, h, w] =>
    if c = c1 ∧ 0 < s ∧ k ≤ h + 2 * p ∧ k ≤ w + 2 * p then
      Except.ok [n, c2, (h + 2 * p - k) / s + 1, (w + 2 * p - k) / s + 1]
    else Except.error "conv2d: invalid input"
  | Layer.conv2d _ _ _ _ _ _, _ => Except.error "conv2d: expected 4d input"
  | Layer.batchNorm2d c, [n, c2, h, w] =>
    if c2 = c then Except.ok [n, c2, h, w]
    else Except.error "batchnorm2d: channel mismatch"
  | Layer.batchNorm2d _, _ => Except.error "batchnorm2d: expected 4d input"
  | Layer.leakyReLU _, s => Except.ok s
  | Layer.reLU, s => Except.ok s
  | Layer.identityAct, s => Except.ok s
  | Layer.maxPool2d k s, [n, c, h, w] =>
    if 0 < s ∧ k ≤ h ∧ k ≤ w then
      Except.ok [n, c, (h - k) / s + 1, (w - k) / s + 1]
    else Except.error "maxpool2d: invalid input"
  | Layer.maxPool2d _ _, _ => Except.error "maxpool2d: expected 4d input"
  | Layer.globalAvgPool, s => globalAvgPoolShape s
  | Layer.linear i o _, s =>
    match s.getLast? with
    | some f =>
      if f = i then Except.ok (s.dropLast ++ [o])
      else Except.error "linear: feature mismatch"
    | none => Except.error "linear: empty shape"
  | Layer.softmax d, s =>
    if d < s.length then Except.ok s
    else Except.error "softmax: dim out of range"

/-- Shape behaviour of the elementwise tensor addition `out += residual`:
defined exactly when both shapes agree. -/
def addShape (s t : TShape) : Except String TShape :=
  if s = t then Except.ok s else Except.error "add: shape mismatch"

/-- The shape semantics of a wiring: the generic evaluator instantiated
with the framework's shape behaviour. -/
def netShape (ns : List Net) (s : TShape) : Except String TShape :=
  runNets shapeOf addShape ns s

/-- Trainable parameter count (`numel` summed over the parameters) of
one leaf module: a `Conv2d` weight is `c2 * c1 * k * k` (groups is `1`)
plus `c2` if it has a bias; an affine `BatchNorm2d` has weight and bias
of size `c` (its running statistics are buffers, not parameters); a
`Linear` has `o * i` plus `o` if it has a bias; the remaining modules
have no parameters. -/
def Layer.paramCount : Layer → Nat
  | Layer.conv2d c1 c2 k _ _ bias => c2 * c1 * k * k + (if bias then c2 else 0)
  | Layer.batchNorm2d c => 2 * c
  | Layer.linear i o bias => o * i + (if bias then o else 0)
  | _ => 0

/-- `sum(p.numel() for p in net.parameters() if p.requires_grad)`: every
parameter of these networks requires grad, and shared modules (the
classifier unpacks `*self.features`) are counted once. -/
def totalParams (bs : List Block) : Nat :=
  ((layersOf bs).map Layer.paramCount).sum

/-- What one `print` call of the `__main__` driver reports: either a
parameter count or the shape of a tensor (the result of a forward run at
shape level; the driver's input `torch.randn(1, 3, 256, 256)` only
matters through its shape). -/
inductive PrintedLine where
  | paramCount (n : Nat)
  | tensorShape (r : Except String TShape)

/-- The `__main__` driver: construct `DarkNet19(num_classes=1000,
init_weight=True)` and `DarkNet53(ResidualBlock, num_classes=1000,
init_weight=True)`, then print, in order: the trainable parameter count
of each network, the classifier output shape of each network on an input
of shape `(1, 3, 256, 256)`, and the feature-extractor output shape of
each network on the same input. -/
def mainPrinted : List PrintedLine :=
  let dk19 := darknet19New 1000 true
  let dk53 := darknet53New Block.resB 1000 true
  let x : TShape := [1, 3, 256, 256]
  [PrintedLine.paramCount (totalParams dk19.classifier),
   PrintedLine.paramCount (totalParams dk53.classifier),
   PrintedLine.tensorShape (netShape (netsOf dk19.classifier) x),
   PrintedLine.tensorShape (netShape (netsOf dk53.classifier) x),
   PrintedLine.tensorShape (netShape (netsOf dk19.features) x),
   PrintedLine.tensorShape (netShape (netsOf dk53.features) x)]

/-- Is this leaf module an `nn.Conv2d`? -/
def isConv2d : Layer → Bool
  | Layer.conv2d _ _ _ _ _ _ => true
  | _ => false

/-- Is this leaf module an activation module
(`nn.LeakyReLU`, `nn.ReLU`, or `nn.Identity`)? -/
def isActLayer : Layer → Bool
  | Layer.leakyReLU _ => true
  | Layer.reLU => true
  | Layer.identityAct => true
  | _ => false

/-- Is this leaf module an `nn.Linear`? -/
def isLinearLayer : Layer → Bool
  | Layer.linear _ _ _ => true
  | _ => false

/-- Number of `nn.Conv2d` leaf modules (convolutional layers) in a block
list, counting the two convolutions inside each `ResidualBlock`. -/
def countConvLayers (bs : List Block) : Nat :=
  ((layersOf bs).filter isConv2d).length

/-- Number of `nn.Linear` leaf modules in a block list. -/
def countLinearLayers (bs : List Block) : Nat :=
  ((layersOf bs).filter isLinearLayer).length

/-- The `(in_channels, out_channels, kernel)` triples of the `Conv`
blocks of a block list, in order. -/
def convTriples (bs : List Block) : List (Nat × Nat × Nat) :=
  bs.filterMap fun b =>
    match b with
    | Block.convB c1 c2 k _ _ _ => some (c1, c2, k)
    | _ => none

/-- The `(in_channels, out_channels, kernel, stride)` tuples of the
`Conv` blocks of a block list, in order. -/
def convQuads (bs : List Block) : List (Nat × Nat × Nat × Nat) :=
  bs.filterMap fun b =>
    match b with
    | Block.convB c1 c2 k s _ _ => some (c1, c2, k, s)
    | _ => none

/-- Is this block a `MaxPool2d(2, 2)`? -/
def isMaxPool22 : Block → Bool
  | Block.maxPoolB 2 2 => true
  | _ => false

/-- The channel widths of the `ResidualBlock` entries of a block list,
in order. -/
def resWidths (bs : List Block) : List Nat :=
  bs.filterMap fun b =>
    match b with
    | Block.resB c1 => some c1
    | _ => none

/-- Follows the spec's words, for the refinement claim: the spec says
each network "exposes a classifier head and a feature-extractor
sub-network", and the claim says the full forward pass factors through
the feature extractor followed by the head.  This definition is that
factored pipeline: run the feature part, then run the head part on its
result. -/
def specFactoredForward {T : Type} (I : Layer → T → Except String T)
    (addT : T → T → Except String T)
    (featurePart headPart : List Block) (x : T) : Except String T :=
  match runNets I addT (netsOf featurePart) x with
  | Except.ok y => runNets I addT (netsOf headPart) y
  | Except.error e => Except.error e

/-- The head of `DarkNet19.classifier` as described by the claim:
`Conv(1024, num_classes, 1)`, then global average pooling, then softmax
over dim 1. -/
def darknet19Head (numClasses : Nat) : List Block :=
  [Block.convB 1024 numClasses 1 1 none true, Block.gapB, Block.softmaxB 1]

/-- The head of `DarkNet53.classifier` as described by the claim: global
average pooling, then `Linear(1024, num_classes)`, then softmax over
dim 1. -/
def darknet53Head (numClasses : Nat) : List Block :=
  [Block.gapB, Block.linearB 1024 numClasses, Block.softmaxB 1]

/-! ### Basic lemmas about the evaluators -/

theorem runLayers_append {T : Type} (I : Layer → T → Except String T) :
    ∀ (ls ms : List Layer) (x : T),
      runLayers I (ls ++ ms) x =
        match runLayers I ls x with
        | Except.ok y => runLayers I ms y
        | Except.error e => Except.error e := by
  intro ls
  induction ls with
  | nil => intro ms x; rfl
  | cons l lt ih =>
    intro ms x
    rw [List.cons_append]
    simp only [runLayers]
    cases hI : I l x with
    | ok y => exact ih ms y
    | error e => rfl

theorem runNets_append {T : Type} (I : Layer → T → Except String T)
    (addT : T → T → Except String T) :
    ∀ (ns ms : List Net) (x : T),
      runNets I addT (ns ++ ms) x =
        match runNets I addT ns x with
        | Except.ok y => runNets I addT ms y
        | Except.error e => Except.error e := by
  intro ns
  induction ns with
  | nil => intro ms x; rfl
  | cons nh nt ih =>
    intro ms x
    cases nh with
    | prim l =>
      rw [List.cons_append]
      simp only [runNets]
      cases hI : I l x with
      | ok y => exact ih ms y
      | error e => rfl
    | residual body =>
      rw [List.cons_append]
      simp only [runNets]
      cases hB : runLayers I body x with
      | ok y =>
        dsimp only
        cases hA : addT y x with
        | ok z => exact ih ms z
        | error e => rfl
      | error e => rfl

theorem netsOf_append : ∀ (as bs : List Block),
    netsOf (as ++ bs) = netsOf as ++ netsOf bs := by
  intro as
  induction as with
  | nil => intro bs; rfl
  | cons b bt ih =>
    intro bs
    rw [List.cons_append]
    simp only [netsOf]
    rw [ih, List.append_assoc]

theorem netShape_append_ok (as bs : List Block) (s t : TShape)
    (h : netShape (netsOf as) s = Except.ok t) :
    netShape (netsOf (as ++ bs)) s = netShape (netsOf bs) t := by
  have h2 : runNets shapeOf addShape (netsOf as) s = Except.ok t := h
  simp only [netShape, netsOf_append, runNets_append, h2]

/-! ### Shape behaviour of the individual layers -/

theorem shapeOf_conv_ok {c1 c2 k s p : Nat} {b : Bool} {n h w d1 d2 : Nat}
    (hs : 0 < s) (hh : k ≤ h + 2 * p) (hw : k ≤ w + 2 * p)
    (e1 : (h + 2 * p - k) / s + 1 = d1) (e2 : (w + 2 * p - k) / s + 1 = d2) :
    shapeOf (Layer.conv2d c1 c2 k s p b) [n, c1, h, w] = Except.ok [n, c2, d1, d2] := by
  show (if c1 = c1 ∧ 0 < s ∧ k ≤ h + 2 * p ∧ k ≤ w + 2 * p then
      Except.ok [n, c2, (h + 2 * p - k) / s + 1, (w + 2 * p - k) / s + 1]
    else Except.error "conv2d: invalid input") = Except.ok [n, c2, d1, d2]
  rw [if_pos ⟨rfl, hs, hh, hw⟩, e1, e2]

theorem shapeOf_bn (c n h w : Nat) :
    shapeOf (Layer.batchNorm2d c) [n, c, h, w] = Except.ok [n, c, h, w] := by
  show (if c = c then Except.ok [n, c, h, w]
    else Except.error "batchnorm2d: channel mismatch") = Except.ok [n, c, h, w]
  rw [if_pos rfl]

theorem shapeOf_leaky (q : ℚ) (s : TShape) :
    shapeOf (Layer.leakyReLU q) s = Except.ok s := rfl

theorem shapeOf_pool_ok {k s n c h w d1 d2 : Nat}
    (hs : 0 < s) (hh : k ≤ h) (hw : k ≤ w)
    (e1 : (h - k) / s + 1 = d1) (e2 : (w - k) / s + 1 = d2) :
    shapeOf (Layer.maxPool2d k s) [n, c, h, w] = Except.ok [n, c, d1, d2] := by
  show (if 0 < s ∧ k ≤ h ∧ k ≤ w then
      Except.ok [n, c, (h - k) / s + 1, (w - k) / s + 1]
    else Except.error "maxpool2d: invalid input") = Except.ok [n, c, d1, d2]
  rw [if_pos ⟨hs, hh, hw⟩, e1, e2]

theorem shapeOf_gap (n c h w : Nat) :
    shapeOf Layer.globalAvgPool [n, c, h, w] = Except.ok [n, c] := rfl

theorem shapeOf_linear (i o n : Nat) (b : Bool) :
    shapeOf (Layer.linear i o b) [n, i] = Except.ok [n, o] := by
  show (if i = i then Except.ok (List.dropLast [n, i] ++ [o])
    else Except.error "linear: feature mismatch") = Except.ok [n, o]
  rw [if_pos rfl]
  rfl

theorem shapeOf_softmax1 (n c : Nat) :
    shapeOf (Layer.softmax 1) [n, c] = Except.ok [n, c] := rfl

/-! ### Shape steps through whole blocks -/

theorem step_conv3s1 (c1 c2 n h w : Nat) (bs : List Block)
    (hh : 0 < h) (hw : 0 < w) :
    netShape (netsOf (Block.convB c1 c2 3 1 none true :: bs)) [n, c1, h, w] =
      netShape (netsOf bs) [n, c2, h, w] := by
  have e1 : shapeOf (Layer.conv2d c1 c2 3 1 1 false) [n, c1, h, w] =
      Except.ok [n, c2, h, w] :=
    shapeOf_conv_ok (by omega) (by omega) (by omega) (by omega) (by omega)
  show netShape (Net.prim (Layer.conv2d c1 c2 3 1 1 false) ::
      Net.prim (Layer.batchNorm2d c2) ::
      Net.prim (Layer.leakyReLU (1/100)) :: netsOf bs) [n, c1, h, w] = _
  simp only [netShape, runNets, e1, shapeOf_bn, shapeOf_leaky]

theorem step_conv1s1 (c1 c2 n h w : Nat) (bs : List Block)
    (hh : 0 < h) (hw : 0 < w) :
    netShape (netsOf (Block.convB c1 c2 1 1 none true :: bs)) [n, c1, h, w] =
      netShape (netsOf bs) [n, c2, h, w] := by
  have e1 : shapeOf (Layer.conv2d c1 c2 1 1 0 false) [n, c1, h, w] =
      Except.ok [n, c2, h, w] :=
    shapeOf_conv_ok (by omega) (by omega) (by omega) (by omega) (by omega)
  show netShape (Net.prim (Layer.conv2d c1 c2 1 1 0 false) ::
      Net.prim (Layer.batchNorm2d c2) ::
      Net.prim (Layer.leakyReLU (1/100)) :: netsOf bs) [n, c1, h, w] = _
  simp only [netShape, runNets, e1, shapeOf_bn, shapeOf_leaky]

theorem step_conv3s2 (c1 c2 n a b : Nat) (bs : List Block)
    (ha : 0 < a) (hb : 0 < b) :
    netShape (netsOf (Block.convB c1 c2 3 2 none true :: bs)) [n, c1, 2 * a, 2 * b] =
      netShape (netsOf bs) [n, c2, a, b] := by
  have e1 : shapeOf (Layer.conv2d c1 c2 3 2 1 false) [n, c1, 2 * a, 2 * b] =
      Except.ok [n, c2, a, b] :=
    shapeOf_conv_ok (by omega) (by omega) (by omega) (by omega) (by omega)
  show netShape (Net.prim (Layer.conv2d c1 c2 3 2 1 false) ::
      Net.prim (Layer.batchNorm2d c2) ::
      Net.prim (Layer.leakyReLU (1/100)) :: netsOf bs) [n, c1, 2 * a, 2 * b] = _
  simp only [netShape, runNets, e1, shapeOf_bn, shapeOf_leaky]

theorem step_maxpool22 (c n a b : Nat) (bs : List Block)
    (ha : 0 < a) (hb : 0 < b) :
    netShape (netsOf (Block.maxPoolB 2 2 :: bs)) [n, c, 2 * a, 2 * b] =
      netShape (netsOf bs) [n, c, a, b] := by
  have e1 : shapeOf (Layer.maxPool2d 2 2) [n, c, 2 * a, 2 * b] =
      Except.ok [n, c, a, b] :=
    shapeOf_pool_ok (by omega) (by omega) (by omega) (by omega) (by omega)
  show netShape (Net.prim (Layer.maxPool2d 2 2) :: netsOf bs) [n, c, 2 * a, 2 * b] = _
  simp only [netShape, runNets, e1]

theorem resblock_layers_shape (c n h w : Nat) (hh : 0 < h) (hw : 0 < w) :
    runLayers shapeOf (ResidualBlockLayers c) [n, c, h, w] =
      Except.ok [n, c, h, w] := by
  have e1 : shapeOf (Layer.conv2d c (c / 2) 1 1 0 false) [n, c, h, w] =
      Except.ok [n, c / 2, h, w] :=
    shapeOf_conv_ok (by omega) (by omega) (by omega) (by omega) (by omega)
  have e2 : shapeOf (Layer.conv2d (c / 2) c 3 1 1 false) [n, c / 2, h, w] =
      Except.ok [n, c, h, w] :=
    shapeOf_conv_ok (by omega) (by omega) (by omega) (by omega) (by omega)
  show runLayers shapeOf (Layer.conv2d c (c / 2) 1 1 0 false ::
      Layer.batchNorm2d (c / 2) :: Layer.leakyReLU (1/100) ::
      Layer.conv2d (c / 2) c 3 1 1 false ::
      Layer.batchNorm2d c :: Layer.leakyReLU (1/100) :: []) [n, c, h, w] = _
  simp only [runLayers, e1, e2, shapeOf_bn, shapeOf_leaky]

theorem step_res (c n h w : Nat) (bs : List Block)
    (hh : 0 < h) (hw : 0 < w) :
    netShape (netsOf (Block.resB c :: bs)) [n, c, h, w] =
      netShape (netsOf bs) [n, c, h, w] := by
  have hA : addShape [n, c, h, w] [n, c, h, w] = Except.ok [n, c, h, w] := by
    show (if ([n, c, h, w] : TShape) = [n, c, h, w] then Except.ok [n, c, h, w]
      else Except.error "add: shape mismatch") = Except.ok [n, c, h, w]
    rw [if_pos rfl]
  show netShape (Net.residual (ResidualBlockLayers c) :: netsOf bs) [n, c, h, w] = _
  simp only [netShape, runNets, resblock_layers_shape c n h w hh hw, hA]

theorem step_res_replicate (m c n h w : Nat) (bs : List Block)
    (hh : 0 < h) (hw : 0 < w) :
    netShape (netsOf (List.replicate m (Block.resB c) ++ bs)) [n, c, h, w] =
      netShape (netsOf bs) [n, c, h, w] := by
  induction m with
  | zero => rfl
  | succ m ih =>
    rw [List.replicate_succ, List.cons_append, step_res c n h w _ hh hw, ih]

theorem step_gap (n c h w : Nat) (bs : List Block) :
    netShape (netsOf (Block.gapB :: bs)) [n, c, h, w] =
      netShape (netsOf bs) [n, c] := by
  show netShape (Net.prim Layer.globalAvgPool :: netsOf bs) [n, c, h, w] = _
  simp only [netShape, runNets, shapeOf_gap]

theorem step_linear (i o n : Nat) (bs : List Block) :
    netShape (netsOf (Block.linearB i o :: bs)) [n, i] =
      netShape (netsOf bs) [n, o] := by
  show netShape (Net.prim (Layer.linear i o true) :: netsOf bs) [n, i] = _
  simp only [netShape, runNets, shapeOf_linear]

theorem step_softmax1 (n c : Nat) (bs : List Block) :
    netShape (netsOf (Block.softmaxB 1 :: bs)) [n, c] =
      netShape (netsOf bs) [n, c] := by
  show netShape (Net.prim (Layer.softmax 1) :: netsOf bs) [n, c] = _
  simp only [netShape, runNets, shapeOf_softmax1]

theorem netShape_nil (s : TShape) : netShape (netsOf []) s = Except.ok s := rfl

theorem addShape_self (s : TShape) : addShape s s = Except.ok s := by
  show (if s = s then Except.ok s else Except.error "add: shape mismatch") = Except.ok s
  rw [if_pos rfl]

theorem netShape_res_replicate_nil (m c n h w : Nat) (hh : 0 < h) (hw : 0 < w) :
    netShape (netsOf (List.replicate m (Block.resB c))) [n, c, h, w] =
      Except.ok [n, c, h, w] := by
  induction m with
  | zero => rfl
  | succ m ih =>
    rw [List.replicate_succ, step_res c n h w _ hh hw, ih]

/-- Shape of `DarkNet19.features` on an input whose spatial size is a
positive multiple of 32: the five stride-2 poolings divide each spatial
dimension by 32 and the channel width ends at 1024. -/
theorem darknet19Features_shape (n a b : Nat) (ha : 0 < a) (hb : 0 < b) :
    netShape (netsOf darknet19Features) [n, 3, 32 * a, 32 * b] =
      Except.ok [n, 1024, a, b] := by
  have ea1 : (32 : Nat) * a = 2 * (16 * a) := by ring
  have eb1 : (32 : Nat) * b = 2 * (16 * b) := by ring
  have ea2 : (16 : Nat) * a = 2 * (8 * a) := by ring
  have eb2 : (16 : Nat) * b = 2 * (8 * b) := by ring
  have ea3 : (8 : Nat) * a = 2 * (4 * a) := by ring
  have eb3 : (8 : Nat) * b = 2 * (4 * b) := by ring
  have ea4 : (4 : Nat) * a = 2 * (2 * a) := by ring
  have eb4 : (4 : Nat) * b = 2 * (2 * b) := by ring
  simp only [darknet19Features]
  rw [ea1, eb1, step_conv3s1, step_maxpool22,
      step_conv3s1, ea2, eb2, step_maxpool22,
      step_conv3s1, step_conv1s1, step_conv3s1, ea3, eb3, step_maxpool22,
      step_conv3s1, step_conv1s1, step_conv3s1, ea4, eb4, step_maxpool22,
      step_conv3s1, step_conv1s1, step_conv3s1, step_conv1s1, step_conv3s1,
      step_maxpool22,
      step_conv3s1, step_conv1s1, step_conv3s1, step_conv1s1, step_conv3s1]
  · exact netShape_nil _
  all_goals omega

/-- Shape of `DarkNet53.features` on an input whose spatial size is a
positive multiple of 32: the five stride-2 convolutions divide each
spatial dimension by 32, the residual stages preserve shape, and the
channel width ends at 1024. -/
theorem darknet53Features_shape (n a b : Nat) (ha : 0 < a) (hb : 0 < b) :
    netShape (netsOf (darknet53Features Block.resB)) [n, 3, 32 * a, 32 * b] =
      Except.ok [n, 1024, a, b] := by
  have ea1 : (32 : Nat) * a = 2 * (16 * a) := by ring
  have eb1 : (32 : Nat) * b = 2 * (16 * b) := by ring
  have ea2 : (16 : Nat) * a = 2 * (8 * a) := by ring
  have eb2 : (16 : Nat) * b = 2 * (8 * b) := by ring
  have ea3 : (8 : Nat) * a = 2 * (4 * a) := by ring
  have eb3 : (8 : Nat) * b = 2 * (4 * b) := by ring
  have ea4 : (4 : Nat) * a = 2 * (2 * a) := by ring
  have eb4 : (4 : Nat) * b = 2 * (2 * b) := by ring
  simp only [darknet53Features, make_layer, List.append_assoc, List.cons_append,
    List.nil_append]
  rw [step_conv3s1, ea1, eb1, step_conv3s2, step_res_replicate,
      ea2, eb2, step_conv3s2, step_res_replicate,
      ea3, eb3, step_conv3s2, step_res_replicate,
      ea4, eb4, step_conv3s2, step_res_replicate,
      step_conv3s2]
  · exact netShape_res_replicate_nil 4 1024 n a b (by omega) (by omega)
  all_goals omega

-- Error-propagation helper: every error produced by a leaf-module chain
-- is an error returned by the framework interpretation itself.
theorem runLayers_errors_from_framework {T : Type} (I : Layer → T → Except String T) :
    ∀ (ls : List Layer) (x : T) (e : String),
      runLayers I ls x = Except.error e → ∃ l y, I l y = Except.error e := by
  intro ls
  induction ls with
  | nil =>
    intro x e h
    exact absurd h (by simp [runLayers])
  | cons l lt ih =>
    intro x e h
    simp only [runLayers] at h
    cases hI : I l x with
    | ok y =>
      rw [hI] at h
      exact ih y e h
    | error e2 =>
      rw [hI] at h
      exact ⟨l, x, hI.trans (h : Except.error e2 = Except.error e)⟩

/-! ### Claim theorems -/

set_option maxRecDepth 100000 in
/-- Claim C1 (code bug): in both `DarkNet19.__init__` and
`DarkNet53.__init__` the `if init_weight: self._initialize_weights()`
statement runs before `self.features` and `self.classifier` are
assigned, so the `for m in self.modules()` loop sees no `nn.Conv2d`,
`nn.BatchNorm2d` or `nn.Linear` submodule and applies no initialization
at all, contradicting the claim that the policy is applied to every
module.  The constructed networks do contain `nn.Conv2d` submodules, and
the dispatch itself (run over the constructed module list, as the claim
describes) would give every `nn.Conv2d` its kaiming-normal
initialization — the code's call placement, not the policy, is at
fault. -/
theorem darknet_init_weight_pass_is_noop :
    (darknet19New 1000 true).initActions = [] ∧
    (darknet53New Block.resB 1000 true).initActions = [] ∧
    Layer.conv2d 3 32 3 1 1 false ∈ Model.modules (darknet19New 1000 true) ∧
    Layer.conv2d 3 32 3 1 1 false ∈ Model.modules (darknet53New Block.resB 1000 true) ∧
    ¬ (∀ m ∈ Model.modules (darknet19New 1000 true), isConv2d m = true →
        (m, InitAction.kaimingNormalFanInLeakyReLU) ∈ (darknet19New 1000 true).initActions) ∧
    ¬ (∀ m ∈ Model.modules (darknet53New Block.resB 1000 true), isConv2d m = true →
        (m, InitAction.kaimingNormalFanInLeakyReLU) ∈ (darknet53New Block.resB 1000 true).initActions) ∧
    (∀ m ∈ Model.modules (darknet19New 1000 true), isConv2d m = true →
        (m, InitAction.kaimingNormalFanInLeakyReLU) ∈
          initWeightsPass (Model.modules (darknet19New 1000 true))) ∧
    (∀ m ∈ Model.modules (darknet53New Block.resB 1000 true), isConv2d m = true →
        (m, InitAction.kaimingNormalFanInLeakyReLU) ∈
          initWeightsPass (Model.modules (darknet53New Block.resB 1000 true))) := by
  decide

/-- Claim C2: `ResidualBlock.forward` returns the output of its
two-convolution sub-network added elementwise to the unmodified input:
for every interpretation of the framework primitives,
`forward(x) = add (layer2 (layer1 x)) x`, where `layer1` is the 1x1
convolution block `Conv(c1, c1 // 2, k=1, s=1, p=0)` halving the channel
count and `layer2` is the 3x3 convolution block `Conv(c1 // 2, c1, k=3)`
restoring it. -/
theorem residual_forward_is_body_plus_input (T : Type)
    (I : Layer → T → Except String T) (addT : T → T → Except String T)
    (c1 : Nat) (x : T) :
    runNets I addT (Block.nets (Block.resB c1)) x =
      match runLayers I (Conv c1 (c1 / 2) 1 1 (some 0) true) x with
      | Except.ok y =>
        match runLayers I (Conv (c1 / 2) c1 3 1 none true) y with
        | Except.ok z => addT z x
        | Except.error e => Except.error e
      | Except.error e => Except.error e := by
  show runNets I addT [Net.residual (ResidualBlockLayers c1)] x = _
  simp only [runNets, ResidualBlockLayers, runLayers_append]
  cases h1 : runLayers I (Conv c1 (c1 / 2) 1 1 (some 0) true) x with
  | error e => rfl
  | ok y =>
    dsimp only
    cases h2 : runLayers I (Conv (c1 / 2) c1 3 1 none true) y with
    | error e => rfl
    | ok z =>
      dsimp only
      cases h3 : addT z x with
      | ok u => rfl
      | error e => rfl

/-- Claim C3: the full forward pass of each network factors through its
feature extractor: for every interpretation of the framework primitives,
`DarkNet19.forward x` equals the head (1x1 Conv to `num_classes`
channels, then global average pooling, then softmax over dim 1) applied
to `DarkNet19.features x`, and `DarkNet53.forward x` equals its head
(global average pooling, then `Linear(1024, num_classes)`, then softmax
over dim 1) applied to `DarkNet53.features x`. -/
theorem forward_factors_through_features (T : Type)
    (I : Layer → T → Except String T) (addT : T → T → Except String T)
    (nc : Nat) (x : T) :
    Model.forward (darknet19New nc true) I addT x =
      specFactoredForward I addT darknet19Features (darknet19Head nc) x ∧
    Model.forward (darknet53New Block.resB nc true) I addT x =
      specFactoredForward I addT (darknet53Features Block.resB) (darknet53Head nc) x := by
  constructor
  · show runNets I addT (netsOf (darknet19Features ++ darknet19Head nc)) x = _
    rw [netsOf_append, runNets_append]
    rfl
  · show runNets I addT
      (netsOf (darknet53Features Block.resB ++ darknet53Head nc)) x = _
    rw [netsOf_append, runNets_append]
    rfl

/-- Claim C4: `DarkNet19.features` consists of exactly 18 `Conv` blocks
with the channel/kernel schedule of the source, interleaved with five
`MaxPool2d(2, 2)` layers in the stated positions, and the classifier
appends one further `Conv(1024, num_classes, 1)` block, for 19
convolutional layers in total. -/
theorem darknet19_architecture (nc : Nat) :
    convTriples darknet19Features =
      [(3, 32, 3), (32, 64, 3),
       (64, 128, 3), (128, 64, 1), (64, 128, 3),
       (128, 256, 3), (256, 128, 1), (128, 256, 3),
       (256, 512, 3), (512, 256, 1), (256, 512, 3), (512, 256, 1), (256, 512, 3),
       (512, 1024, 3), (1024, 512, 1), (512, 1024, 3), (1024, 512, 1), (512, 1024, 3)] ∧
    (convTriples darknet19Features).length = 18 ∧
    darknet19Features.map isMaxPool22 =
      [false, true,
       false, true,
       false, false, false, true,
       false, false, false, true,
       false, false, false, false, false, true,
       false, false, false, false, false] ∧
    (darknet19Features.filter isMaxPool22).length = 5 ∧
    convTriples (darknet19Classifier nc) =
      convTriples darknet19Features ++ [(1024, nc, 1)] ∧
    countConvLayers (darknet19Classifier nc) = 19 :=
  ⟨rfl, rfl, rfl, rfl, rfl, rfl⟩

/-- Claim C5: `DarkNet53.features` is the stem `Conv(3, 32, 3)`,
`Conv(32, 64, 3, 2)` followed by residual stages of 1, 2, 8, 8 and 4
blocks at widths 64, 128, 256, 512 and 1024, each stage except the last
followed by a stride-2 3x3 `Conv` doubling the channel count, for 52
convolutional layers in `features`; the classifier holds the single
`Linear` layer. -/
theorem darknet53_architecture (nc : Nat) :
    darknet53Features Block.resB =
      [Block.convB 3 32 3 1 none true, Block.convB 32 64 3 2 none true] ++
      List.replicate 1 (Block.resB 64) ++ [Block.convB 64 128 3 2 none true] ++
      List.replicate 2 (Block.resB 128) ++ [Block.convB 128 256 3 2 none true] ++
      List.replicate 8 (Block.resB 256) ++ [Block.convB 256 512 3 2 none true] ++
      List.replicate 8 (Block.resB 512) ++ [Block.convB 512 1024 3 2 none true] ++
      List.replicate 4 (Block.resB 1024) ∧
    convQuads (darknet53Features Block.resB) =
      [(3, 32, 3, 1), (32, 64, 3, 2), (64, 128, 3, 2), (128, 256, 3, 2),
       (256, 512, 3, 2), (512, 1024, 3, 2)] ∧
    resWidths (darknet53Features Block.resB) =
      List.replicate 1 64 ++ List.replicate 2 128 ++ List.replicate 8 256 ++
      List.replicate 8 512 ++ List.replicate 4 1024 ∧
    countConvLayers (darknet53Features Block.resB) = 52 ∧
    countLinearLayers (darknet53Classifier Block.resB nc) = 1 :=
  ⟨rfl, rfl, rfl, rfl, rfl⟩

/-- Claim C6: on every batched input `[n, 3, h, w]` with `h` and `w`
positive multiples of 32, the classifier of each network (with
`num_classes = 1000`) outputs shape `[n, 1000]` and the feature
extractor outputs shape `[n, 1024, h / 32, w / 32]`. -/
theorem darknet_output_and_feature_shapes (n h w : Nat)
    (hdh : 32 ∣ h) (hdw : 32 ∣ w) (hh : 0 < h) (hw : 0 < w) :
    netShape (netsOf (darknet19New 1000 true).classifier) [n, 3, h, w] =
      Except.ok [n, 1000] ∧
    netShape (netsOf (darknet19New 1000 true).features) [n, 3, h, w] =
      Except.ok [n, 1024, h / 32, w / 32] ∧
    netShape (netsOf (darknet53New Block.resB 1000 true).classifier) [n, 3, h, w] =
      Except.ok [n, 1000] ∧
    netShape (netsOf (darknet53New Block.resB 1000 true).features) [n, 3, h, w] =
      Except.ok [n, 1024, h / 32, w / 32] := by
  obtain ⟨a, rfl⟩ := hdh
  obtain ⟨b, rfl⟩ := hdw
  have ha : 0 < a := by omega
  have hb : 0 < b := by omega
  have hda : 32 * a / 32 = a := by omega
  have hdb : 32 * b / 32 = b := by omega
  have hf19 := darknet19Features_shape n a b ha hb
  have hf53 := darknet53Features_shape n a b ha hb
  refine ⟨?_, ?_, ?_, ?_⟩
  · show netShape (netsOf (darknet19Features ++
        [Block.convB 1024 1000 1 1 none true, Block.gapB, Block.softmaxB 1]))
      [n, 3, 32 * a, 32 * b] = Except.ok [n, 1000]
    rw [netShape_append_ok _ _ _ _ hf19, step_conv1s1, step_gap, step_softmax1]
    · exact netShape_nil _
    all_goals omega
  · show netShape (netsOf darknet19Features) [n, 3, 32 * a, 32 * b] =
      Except.ok [n, 1024, 32 * a / 32, 32 * b / 32]
    rw [hda, hdb]
    exact hf19
  · show netShape (netsOf (darknet53Features Block.resB ++
        [Block.gapB, Block.linearB 1024 1000, Block.softmaxB 1]))
      [n, 3, 32 * a, 32 * b] = Except.ok [n, 1000]
    rw [netShape_append_ok _ _ _ _ hf53, step_gap, step_linear, step_softmax1]
    exact netShape_nil _
  · show netShape (netsOf (darknet53Features Block.resB)) [n, 3, 32 * a, 32 * b] =
      Except.ok [n, 1024, 32 * a / 32, 32 * b / 32]
    rw [hda, hdb]
    exact hf53

/-- Witness for claim C6 at the concrete input shape `[1, 3, 32, 64]`. -/
theorem darknet_output_and_feature_shapes_witness :
    netShape (netsOf (darknet19New 1000 true).classifier) [1, 3, 32, 64] =
      Except.ok [1, 1000] ∧
    netShape (netsOf (darknet19New 1000 true).features) [1, 3, 32, 64] =
      Except.ok [1, 1024, 1, 2] ∧
    netShape (netsOf (darknet53New Block.resB 1000 true).classifier) [1, 3, 32, 64] =
      Except.ok [1, 1000] ∧
    netShape (netsOf (darknet53New Block.resB 1000 true).features) [1, 3, 32, 64] =
      Except.ok [1, 1024, 1, 2] :=
  darknet_output_and_feature_shapes 1 32 64 ⟨1, rfl⟩ ⟨2, rfl⟩
    (by decide) (by decide)

set_option maxRecDepth 100000 in
/-- Claim C7: the `__main__` driver prints exactly six lines, in order:
the trainable parameter count of `DarkNet19` (20,843,376) and of
`DarkNet53` (41,609,928), then the classifier output shape of each
network for an input of shape `(1, 3, 256, 256)` (both `[1, 1000]`),
then the feature-extractor output shape of each network for the same
input (both `[1, 1024, 8, 8]`). -/
theorem main_driver_prints_six_lines :
    mainPrinted =
      [PrintedLine.paramCount 20843376,
       PrintedLine.paramCount 41609928,
       PrintedLine.tensorShape (Except.ok [1, 1000]),
       PrintedLine.tensorShape (Except.ok [1, 1000]),
       PrintedLine.tensorShape (Except.ok [1, 1024, 8, 8]),
       PrintedLine.tensorShape (Except.ok [1, 1024, 8, 8])] ∧
    mainPrinted.length = 6 :=
  ⟨rfl, rfl⟩

/-- Claim C8: no operation defined in this repository catches, maps or
raises an exception itself: whenever the evaluation of any wiring built
from the repository's blocks (which covers `Conv.forward`,
`ResidualBlock.forward`, both `forward` methods, `_make_layer` products
and the factory outputs) fails, the error is exactly one returned by a
framework primitive — the leaf-module interpretation `I` or the tensor
addition `addT` — propagated unchanged. -/
theorem no_custom_error_handling {T : Type} (I : Layer → T → Except String T)
    (addT : T → T → Except String T) :
    ∀ (ns : List Net) (x : T) (e : String),
      runNets I addT ns x = Except.error e →
      (∃ l y, I l y = Except.error e) ∨ (∃ y z, addT y z = Except.error e) := by
  intro ns
  induction ns with
  | nil =>
    intro x e h
    exact absurd h (by simp [runNets])
  | cons nh nt ih =>
    intro x e h
    cases nh with
    | prim l =>
      simp only [runNets] at h
      cases hI : I l x with
      | ok y =>
        rw [hI] at h
        exact ih y e h
      | error e2 =>
        rw [hI] at h
        exact Or.inl ⟨l, x, hI.trans (h : Except.error e2 = Except.error e)⟩
    | residual body =>
      simp only [runNets] at h
      cases hB : runLayers I body x with
      | ok y =>
        rw [hB] at h
        dsimp only at h
        cases hA : addT y x with
        | ok z =>
          rw [hA] at h
          exact ih z e h
        | error e2 =>
          rw [hA] at h
          exact Or.inr ⟨y, x, hA.trans (h : Except.error e2 = Except.error e)⟩
      | error e2 =>
        rw [hB] at h
        exact Or.inl (runLayers_errors_from_framework I body x e
          (hB.trans (h : Except.error e2 = Except.error e)))

/-- Witness for claim C8: at shape level, feeding `DarkNet19.forward` a
4-channel input makes the first framework convolution fail, and the
error propagates unchanged. -/
theorem no_custom_error_handling_witness :
    runNets shapeOf addShape (netsOf (darknet19New 1000 true).classifier)
      [1, 4, 32, 32] = Except.error "conv2d: invalid input" ∧
    ((∃ l y, shapeOf l y = Except.error "conv2d: invalid input") ∨
     (∃ y z, addShape y z = Except.error "conv2d: invalid input")) :=
  ⟨rfl, no_custom_error_handling shapeOf addShape
    (netsOf (darknet19New 1000 true).classifier) [1, 4, 32, 32]
    "conv2d: invalid input" rfl⟩

set_option maxRecDepth 100000 in
/-- Claim C9: a `Conv` block built with `act=False` applies `nn.ReLU`
(not the identity) after batch normalization; with `act=True` (the value
used by every `Conv` in both networks) it applies `nn.LeakyReLU` with
its default negative slope `0.01`; and no `Conv` block ever applies a
linear (identity) activation. -/
theorem conv_activation_policy :
    Conv.activation false = Layer.reLU ∧
    Conv.activation true = Layer.leakyReLU (1/100) ∧
    (∀ act : Bool, Conv.activation act ≠ Layer.identityAct) ∧
    (∀ nc : Nat, (layersOf (darknet19Classifier nc)).filter isActLayer =
      List.replicate 19 (Layer.leakyReLU (1/100))) ∧
    (∀ nc : Nat, (layersOf (darknet53Classifier Block.resB nc)).filter isActLayer =
      List.replicate 52 (Layer.leakyReLU (1/100))) := by
  refine ⟨rfl, rfl, ?_, fun nc => rfl, fun nc => rfl⟩
  intro act
  cases act <;> decide

/-- Claim C10: `ResidualBlock(c1)` preserves tensor shape: on every
input of shape `[n, c1, h, w]` on which its convolutions are defined
(positive spatial size, `c1 ≥ 2`), the output shape equals the input
shape, so the residual addition is well formed. -/
theorem residual_block_preserves_shape (c1 n h w : Nat)
    (hc : 2 ≤ c1) (hh : 0 < h) (hw : 0 < w) :
    netShape (Block.nets (Block.resB c1)) [n, c1, h, w] =
      Except.ok [n, c1, h, w] := by
  show netShape [Net.residual (ResidualBlockLayers c1)] [n, c1, h, w] = _
  simp only [netShape, runNets, resblock_layers_shape c1 n h w hh hw,
    addShape_self]

/-- Witness for claim C10 at `c1 = 64`, input shape `[2, 64, 8, 8]`. -/
theorem residual_block_preserves_shape_witness :
    2 ≤ 64 ∧
    netShape (Block.nets (Block.resB 64)) [2, 64, 8, 8] =
      Except.ok [2, 64, 8, 8] :=
  ⟨by decide, residual_block_preserves_shape 64 2 8 8 (by decide) (by decide)
    (by decide)⟩

end DarkNetPt
